import Mathlib

/-!
Verification development for the browser calorie-tracker (src/js/app.js).

The Tracker Core (class `CalorieTracker`) is shallowly embedded below:

* JS `Date` values at local midnight are represented by their epoch day
  number (an `Int`); clock instants by epoch milliseconds.  The `Date`
  constructor `new Date(y, m, d)` (month 0-based, overflowing months and
  days normalized) is embedded as `makeDay`, following the ECMAScript
  `MakeDay` algorithm (DayFromYear plus a day-within-year month table).
  JS `Math.floor` division of integers coincides with Lean's `Int` `/`
  (floor division for positive divisors).
* `localStorage` is a record of four optional typed values (keys
  `menus`, `meals`, `dailyGoal`, `userData`); `JSON.stringify` followed
  by `JSON.parse` is the identity on the modelled data, so stored values
  are kept typed.
* Wall-clock access (`Date.now()`, `new Date()`) is passed explicitly:
  operations that read the clock take the instant (or its civil
  components year / month / day-of-month / time-of-day) as parameters.
* JS truthiness on the optional values that the code tests is made
  explicit: `null`/absent and the number `0` and the empty string are
  falsy; objects and arrays (including the empty array) are truthy.
* `elapsedRatio`, a JS float, is modelled as an exact rational.
-/

namespace CalTracker

/-- Milliseconds in a calendar day. -/
def dayMs : Int := 86400000

/-- ECMAScript `DayFromYear(y)`: epoch day number of January 1 of year `y`. -/
def dayFromYear (y : Int) : Int :=
  365 * (y - 1970) + (y - 1969) / 4 - (y - 1901) / 100 + (y - 1601) / 400

/-- ECMAScript `InLeapYear` for year `y`, as the extra day count (0 or 1). -/
def leapDay (y : Int) : Int :=
  if (y % 4 = 0 ∧ y % 100 ≠ 0) ∨ y % 400 = 0 then 1 else 0

/-- Day-within-year of the first day of 0-based month `m` (ECMAScript
`DayWithinYear` month table). -/
def monthOffset (y : Int) (m : Nat) : Int :=
  if m = 0 then 0
  else if m = 1 then 31
  else if m = 2 then 59 + leapDay y
  else if m = 3 then 90 + leapDay y
  else if m = 4 then 120 + leapDay y
  else if m = 5 then 151 + leapDay y
  else if m = 6 then 181 + leapDay y
  else if m = 7 then 212 + leapDay y
  else if m = 8 then 243 + leapDay y
  else if m = 9 then 273 + leapDay y
  else if m = 10 then 304 + leapDay y
  else 334 + leapDay y

/-- ECMAScript `MakeDay(y, m, d)`: epoch day of `new Date(y, m, d)` at
midnight, with 0-based month `m` and day `d` normalized (so `d = 0` is the
last day of the previous month, as used by the source for month ends). -/
def makeDay (y m d : Int) : Int :=
  let ym := y + m / 12
  let mn := (m % 12).toNat
  dayFromYear ym + monthOffset ym mn + (d - 1)

/-- JS `new Date(y, m+1, 0).getDate()` from `getGoalForPeriod`: the day-of-month
of the last day of 0-based month `m`, i.e. the number of days in that month
(day-of-month of a date is its offset from the first of its month plus 1). -/
def daysInMonthJs (y : Int) (m : Nat) : Int :=
  makeDay y (↑m + 1) 0 - makeDay y ↑m 1 + 1

/-- JS `Math.round` on an exact rational. -/
def jsRound (q : ℚ) : Int := ⌊q + 1/2⌋

/-- A menu entry (`{id, name, calories}` created by `addMenu`). -/
structure Menu where
  id : Int
  name : String
  calories : Int
deriving DecidableEq

/-- A meal record; `date` is the epoch day of its calendar date, and the
nullable JS fields are `Option`s (`none` = `null`). -/
structure Meal where
  id : Int
  date : Int
  menuId : Option Int
  menuName : Option String
  menuCalories : Option Int
  customName : Option String
  customCalories : Option Int
deriving DecidableEq

/-- The user profile stored under the `userData` key; the presentation layer
supplies raw field strings, and the core treats the object opaquely. -/
structure UserData where
  age : String
  currentWeight : String
  targetWeight : String
  activityLevel : String
deriving DecidableEq

/-- The goal configuration (`this.goals`). -/
structure Goals where
  daily : Int
  userData : Option UserData
deriving DecidableEq

/-- The `localStorage` keys the tracker writes, each `none` when absent. -/
structure Storage where
  menus : Option (List Menu)
  meals : Option (List Meal)
  dailyGoal : Option Int
  userData : Option UserData
deriving DecidableEq

/-- The tracker's in-memory collections together with persistent storage. -/
structure TrackerState where
  menus : List Menu
  meals : List Meal
  goals : Goals
  store : Storage
deriving DecidableEq

/-- JS truthiness of an optional number (`null` and `0` are falsy). -/
def jsTruthyNum : Option Int → Bool
  | none => false
  | some n => n != 0

/-- JS truthiness of an optional string (`null` and `""` are falsy). -/
def jsTruthyStr : Option String → Bool
  | none => false
  | some s => s != ""

/-- JS `saveMenus()`: write the in-memory menu list to storage. -/
def saveMenus (s : TrackerState) : TrackerState :=
  { s with store := { s.store with menus := some s.menus } }

/-- JS `saveMeals()`: write the in-memory meal list to storage. -/
def saveMeals (s : TrackerState) : TrackerState :=
  { s with store := { s.store with meals := some s.meals } }

/-- JS `addMenu(name, calories)`; `Date.now()` is passed as `idNow` and the
parsed calorie count as an integer. -/
def addMenu (s : TrackerState) (idNow : Int) (name : String) (calories : Int) :
    TrackerState × Menu :=
  let menu : Menu := { id := idNow, name := name, calories := calories }
  (saveMenus { s with menus := s.menus ++ [menu] }, menu)

/-- JS `deleteMenu(id)`. -/
def deleteMenu (s : TrackerState) (id : Int) : TrackerState :=
  saveMenus { s with menus := s.menus.filter (fun menu => menu.id != id) }

/-- JS `addMeal(date, menuId, customName, customCalories)`; `Date.now()` is
passed as `idNow`, the date as an epoch day. -/
def addMeal (s : TrackerState) (idNow : Int) (date : Int) (menuId : Option Int)
    (customName : Option String) (customCalories : Option Int) :
    TrackerState × Meal :=
  let meal : Meal :=
    if jsTruthyNum menuId then
      let menu := s.menus.find? (fun mn => some mn.id == menuId)
      { id := idNow, date := date, menuId := menuId,
        menuName := menu.map Menu.name,
        menuCalories := menu.map Menu.calories,
        customName := none, customCalories := none }
    else
      { id := idNow, date := date, menuId := none,
        menuName := none, menuCalories := none,
        customName := customName,
        customCalories := if jsTruthyNum customCalories then customCalories else none }
  (saveMeals { s with meals := s.meals ++ [meal] }, meal)

/-- JS `deleteMeal(id)`. -/
def deleteMeal (s : TrackerState) (id : Int) : TrackerState :=
  saveMeals { s with meals := s.meals.filter (fun meal => meal.id != id) }

/-- JS `saveGoals(daily, userData)`: overwrite the daily goal (persisted), and
the profile only when one is supplied (truthy). -/
def saveGoals (s : TrackerState) (daily : Int) (userData : Option UserData) :
    TrackerState :=
  let s1 := { s with goals := { s.goals with daily := daily },
                     store := { s.store with dailyGoal := some daily } }
  match userData with
  | some u =>
      { s1 with goals := { s1.goals with userData := some u },
                store := { s1.store with userData := some u } }
  | none => s1

/-- The cutoff instant `sixMonthsAgo` computed by `getOldData` /
`removeOldData`: `new Date()` broken into civil components
(`y`, 0-based month `m`, day-of-month `d`, time-of-day `t` in ms), then
`setMonth(getMonth() - 6)` (ECMAScript `setMonth` keeps the day-of-month and
time and renormalizes via `MakeDay`). -/
def sixMonthsAgoMs (y : Int) (m : Nat) (d t : Int) : Int :=
  makeDay y (↑m - 6) d * dayMs + t

/-- JS `getOldData()`: meals dated strictly before six months ago. -/
def getOldData (s : TrackerState) (y : Int) (m : Nat) (d t : Int) : List Meal :=
  s.meals.filter (fun meal => decide (meal.date * dayMs < sixMonthsAgoMs y m d t))

/-- JS `removeOldData()`: keep only meals dated at or after six months ago. -/
def removeOldData (s : TrackerState) (y : Int) (m : Nat) (d t : Int) :
    TrackerState :=
  saveMeals
    { s with meals :=
        s.meals.filter (fun meal => decide (sixMonthsAgoMs y m d t ≤ meal.date * dayMs)) }

/-- An imported section as found in the parsed JSON: absent (or JS-falsy),
present but of the wrong shape, or well-shaped. -/
inductive ImportSection (α : Type) where
  | missing : ImportSection α
  | malformed : ImportSection α
  | ok : α → ImportSection α
deriving DecidableEq

/-- The `goals` payload of an import file; `daily` is `some` exactly when the
field holds a number. `userData` is the optional profile carried along. -/
structure GoalsPayload where
  daily : Option Int
  userData : Option UserData
deriving DecidableEq

/-- The `data` payload of an import file. -/
structure ImportPayload where
  menus : ImportSection (List Menu)
  meals : ImportSection (List Meal)
  goals : ImportSection GoalsPayload
deriving DecidableEq

/-- The parsed import file envelope `{data, exportedAt}`; each field is
`none` when absent or `null`. -/
structure ImportFile where
  data : Option ImportPayload
  exportedAt : Option String
deriving DecidableEq

/-- JS `exportData(data, filename)`: wrap the payload with the `exportedAt`
timestamp (an ISO string, passed explicitly) and report success. -/
def exportData (payload : ImportPayload) (timestamp : String) : ImportFile × Bool :=
  ({ data := some payload, exportedAt := some timestamp }, true)

/-- The all-data payload the caller exports: `{menus, meals, goals}` built
from the tracker state. -/
def exportAllPayload (s : TrackerState) : ImportPayload :=
  { menus := ImportSection.ok s.menus,
    meals := ImportSection.ok s.meals,
    goals := ImportSection.ok { daily := some s.goals.daily, userData := s.goals.userData } }

/-- Result of `validateImportData`: overall flag plus the three
`details` booleans. -/
structure Validation where
  isValid : Bool
  menusOk : Bool
  mealsOk : Bool
  goalsOk : Bool
deriving DecidableEq

/-- JS `data.menus && Array.isArray(data.menus)` (and likewise for `meals`):
true exactly for a well-shaped array, which is always truthy in JS — the
empty array included. -/
def arraySectionOk {α : Type} : ImportSection (List α) → Bool
  | ImportSection.ok _ => true
  | _ => false

/-- JS `data.goals && typeof data.goals.daily === "number"`. -/
def goalsSectionOk : ImportSection GoalsPayload → Bool
  | ImportSection.ok g => g.daily.isSome
  | _ => false

/-- JS `validateImportData(data)`: each section checked for shape, valid overall
when any one of them is (`Object.values(details).some`). -/
def validateImportData (data : ImportPayload) : Validation :=
  let menusOk := arraySectionOk data.menus
  let mealsOk := arraySectionOk data.meals
  let goalsOk := goalsSectionOk data.goals
  { isValid := menusOk || mealsOk || goalsOk,
    menusOk := menusOk, mealsOk := mealsOk, goalsOk := goalsOk }

/-- JS `mergeData(currentData, newData)` on arrays: start from the current
entries and push each new item whose id is not already found. -/
def mergeData {α : Type} (getId : α → Int) (currentData newData : List α) :
    List α :=
  newData.foldl
    (fun merged item =>
      match merged.find? (fun existing => getId existing == getId item) with
      | some _ => merged
      | none => merged ++ [item])
    currentData

/-- JS `options` of `importData`. -/
structure ImportOptions where
  merge : Bool
  typeMenus : Bool
  typeMeals : Bool
  typeGoals : Bool
deriving DecidableEq

/-- The structured result of `importData`. -/
structure ImportResult where
  success : Bool
  error : Option String
  importedMenus : Bool
  importedMeals : Bool
  importedGoals : Bool
deriving DecidableEq

/-- The failure result produced when a thrown error is caught. -/
def importFailure (msg : String) : ImportResult :=
  { success := false, error := some msg,
    importedMenus := false, importedMeals := false, importedGoals := false }

/-- The menus block of `importData`: guarded by
`validation.details.menus && options.types.menus` — for an array section,
`details.menus` holds exactly when the section is `ok`, so the guard is a
match on the section and the enable flag; replace or merge, then persist. -/
def importMenusStep (merge : Bool) (sec : ImportSection (List Menu))
    (enabled : Bool) (s : TrackerState) : TrackerState :=
  match sec, enabled with
  | ImportSection.ok newMenus, true =>
      let menus1 := if merge then mergeData Menu.id s.menus newMenus else newMenus
      { s with menus := menus1, store := { s.store with menus := some menus1 } }
  | _, _ => s

/-- The meals block of `importData`, like the menus block. -/
def importMealsStep (merge : Bool) (sec : ImportSection (List Meal))
    (enabled : Bool) (s : TrackerState) : TrackerState :=
  match sec, enabled with
  | ImportSection.ok newMeals, true =>
      let meals1 := if merge then mergeData Meal.id s.meals newMeals else newMeals
      { s with meals := meals1, store := { s.store with meals := some meals1 } }
  | _, _ => s

/-- The goals block of `importData`: guarded by `details.goals` (section `ok`
with numeric `daily`) and the enable flag.  On merge the spread
`{...this.goals, ...data.goals}` lets imported keys override (`daily` is
present since it validated numeric; `userData` only when the import carries
one).  Only the `dailyGoal` storage key is written back for this section. -/
def importGoalsStep (merge : Bool) (sec : ImportSection GoalsPayload)
    (enabled : Bool) (s : TrackerState) : TrackerState :=
  match sec, enabled with
  | ImportSection.ok g, true =>
      match g.daily with
      | some dv =>
          let goals1 : Goals :=
            if merge then
              { daily := dv,
                userData := match g.userData with
                            | some u => some u
                            | none => s.goals.userData }
            else
              { daily := dv, userData := g.userData }
          { s with goals := goals1,
                   store := { s.store with dailyGoal := some goals1.daily } }
      | none => s
  | _, _ => s

/-- The body of `importData` after the envelope checks: validate, then run
the three section blocks in source order, and report per section whether it
was imported. -/
def importDataChecked (s : TrackerState) (data : ImportPayload)
    (opts : ImportOptions) : TrackerState × ImportResult :=
  let validation := validateImportData data
  if validation.isValid then
    (importGoalsStep opts.merge data.goals opts.typeGoals
      (importMealsStep opts.merge data.meals opts.typeMeals
        (importMenusStep opts.merge data.menus opts.typeMenus s)),
      { success := true, error := none,
        importedMenus := validation.menusOk && opts.typeMenus,
        importedMeals := validation.mealsOk && opts.typeMeals,
        importedGoals := validation.goalsOk && opts.typeGoals })
  else
    (s, importFailure "インポートデータの形式が正しくありません")

/-- JS `importData(file, options)` on an already-parsed envelope: reject when
`!importedData.data || !importedData.exportedAt`, otherwise proceed; every
failure is caught and returned as a result. -/
def importData (s : TrackerState) (file : ImportFile) (opts : ImportOptions) :
    TrackerState × ImportResult :=
  match file.data, jsTruthyStr file.exportedAt with
  | some data, true => importDataChecked s data opts
  | _, _ => (s, importFailure "無効なインポートファイルです")

/-- The effective calorie count of a meal inside
`calculateCaloriesForDateRange`'s reduce: `customCalories` if non-null, else
`menuCalories` if non-null, else a live lookup of `menuId` in the current
menus (`m.id === meal.menuId`, never matching a `null` id), defaulting to 0. -/
def effectiveCalories (menus : List Menu) (meal : Meal) : Int :=
  match meal.customCalories with
  | some c => c
  | none =>
      match meal.menuCalories with
      | some c => c
      | none =>
          match menus.find? (fun mn => meal.menuId == some mn.id) with
          | some mn => mn.calories
          | none => 0

/-- JS `calculateCaloriesForDateRange(start, end)` over instants in ms: sum the
effective calories of meals whose date lies in `[start, end)`. -/
def calculateCaloriesForDateRange (s : TrackerState) (startMs endMs : Int) : Int :=
  s.meals.foldl
    (fun total meal =>
      if startMs ≤ meal.date * dayMs ∧ meal.date * dayMs < endMs then
        total + effectiveCalories s.menus meal
      else total)
    0

/-- JS `calculateDailyCalories(date)` for a date with civil components
`(y, m, d)`: the window is the calendar day `[new Date(y,m,d), +1 day)`. -/
def calculateDailyCalories (s : TrackerState) (y : Int) (m : Nat) (d : Int) : Int :=
  calculateCaloriesForDateRange s (makeDay y ↑m d * dayMs) (makeDay y ↑m (d + 1) * dayMs)

/-- Day of week of an epoch day (ECMAScript `WeekDay`: day 0 was a Thursday). -/
def weekDayOf (day : Int) : Int := (day + 4) % 7

/-- JS `calculateWeeklyCalories(date)`: the window starts `getDay()` days before
the date — `setDate(getDate() - getDay())` keeps the time-of-day `t` — and
ends 7 days later. -/
def calculateWeeklyCalories (s : TrackerState) (y : Int) (m : Nat) (d t : Int) : Int :=
  let wd := weekDayOf (makeDay y ↑m d)
  calculateCaloriesForDateRange s
    (makeDay y ↑m (d - wd) * dayMs + t)
    (makeDay y ↑m (d - wd + 7) * dayMs + t)

/-- JS `calculateMonthlyCalories(date)`: from `new Date(y, m, 1)` to
`new Date(y, m+1, 0)` — the latter is day 0 of the next month, i.e. the
last day of month `m`, not the first day of month `m+1`. -/
def calculateMonthlyCalories (s : TrackerState) (y : Int) (m : Nat) : Int :=
  calculateCaloriesForDateRange s (makeDay y ↑m 1 * dayMs) (makeDay y (↑m + 1) 0 * dayMs)

/-- The three statistics periods of `calculateStats` (its `switch` has no
other case). -/
inductive Period where
  | daily
  | weekly
  | monthly
deriving DecidableEq

/-- JS `getGoalForPeriod(period, targetDate)`. -/
def getGoalForPeriod (s : TrackerState) (period : Period) (y : Int) (m : Nat) : Int :=
  match period with
  | Period.daily => s.goals.daily
  | Period.weekly => s.goals.daily * 7
  | Period.monthly => s.goals.daily * daysInMonthJs y m

/-- JS `stats.startDate` of `calculateStats`, in epoch ms, for a target date
with civil components `(y, m, d)` and time-of-day `t`. -/
def periodStartMs (period : Period) (y : Int) (m : Nat) (d t : Int) : Int :=
  match period with
  | Period.daily => makeDay y ↑m d * dayMs
  | Period.weekly => makeDay y ↑m (d - weekDayOf (makeDay y ↑m d)) * dayMs + t
  | Period.monthly => makeDay y ↑m 1 * dayMs

/-- JS `stats.endDate` of `calculateStats`, in epoch ms (daily and weekly via
`setDate(getDate() + 1)` / `+ 7`, monthly via `new Date(y, m+1, 0)`). -/
def periodEndMs (period : Period) (y : Int) (m : Nat) (d t : Int) : Int :=
  match period with
  | Period.daily => makeDay y ↑m (d + 1) * dayMs
  | Period.weekly => makeDay y ↑m (d - weekDayOf (makeDay y ↑m d) + 7) * dayMs + t
  | Period.monthly => makeDay y (↑m + 1) 0 * dayMs

/-- The result record of `calculateStats` (dates as epoch ms). -/
structure Stats where
  total : Int
  goal : Int
  difference : Int
  startDateMs : Int
  endDateMs : Int
  prediction : Int
  elapsedRatio : ℚ

/-- JS `calculateStats(period, targetDate)`: the target date's civil components
are `(y, m, d)` with time-of-day `t`; `new Date()` is `nowMs`.  The elapsed
fraction is `min(now - start, total) / total` — clamped above only. -/
def calculateStats (s : TrackerState) (period : Period) (y : Int) (m : Nat)
    (d t nowMs : Int) : Stats :=
  let startMs := periodStartMs period y m d t
  let endMs := periodEndMs period y m d t
  let total :=
    match period with
    | Period.daily => calculateDailyCalories s y m d
    | Period.weekly => calculateWeeklyCalories s y m d t
    | Period.monthly => calculateMonthlyCalories s y m
  let goal := getGoalForPeriod s period y m
  let totalMs := endMs - startMs
  let elapsedMs := min (nowMs - startMs) totalMs
  let ratio : ℚ := (elapsedMs : ℚ) / (totalMs : ℚ)
  { total := total, goal := goal, difference := goal - total,
    startDateMs := startMs, endDateMs := endMs,
    prediction :=
      if period = Period.daily then 0
      else if 0 < ratio then jsRound ((total : ℚ) / ratio) else 0,
    elapsedRatio := ratio }

/-- An empty storage record (no keys present). -/
def emptyStorage : Storage :=
  { menus := none, meals := none, dailyGoal := none, userData := none }

/-- A tracker state with no menus or meals and the default 2000 kcal goal. -/
def emptyState : TrackerState :=
  { menus := [], meals := [],
    goals := { daily := 2000, userData := none },
    store := emptyStorage }

/-- The sample meal for the monthly-window check: dated on the last calendar
day of January 2024, with 500 custom calories. -/
def c1meal : Meal :=
  { id := 1, date := makeDay 2024 0 31, menuId := none, menuName := none,
    menuCalories := none, customName := some "cake", customCalories := some 500 }

/-- A tracker state containing only `c1meal`. -/
def c1state : TrackerState :=
  { menus := [], meals := [c1meal],
    goals := { daily := 2000, userData := none }, store := emptyStorage }

/-- Import options with `merge:false` and all three types enabled. -/
def allTypesNoMerge : ImportOptions :=
  { merge := false, typeMenus := true, typeMeals := true, typeGoals := true }

/-- A sample user profile. -/
def c3userData : UserData :=
  { age := "30", currentWeight := "60", targetWeight := "65", activityLevel := "1.2" }

/-- An import file carrying only a goals section with a profile. -/
def c3goalsFile : ImportFile :=
  { data := some
      { menus := ImportSection.missing, meals := ImportSection.missing,
        goals := ImportSection.ok { daily := some 1800, userData := some c3userData } },
    exportedAt := some "2024-01-01T00:00:00.000Z" }

/-- An import payload whose only section is an empty menus array. -/
def c10payload : ImportPayload :=
  { menus := ImportSection.ok [], meals := ImportSection.missing,
    goals := ImportSection.missing }

/-- An import file wrapping `c10payload`. -/
def c10file : ImportFile :=
  { data := some c10payload, exportedAt := some "2024-01-01T00:00:00.000Z" }

/-- A sample menu. -/
def c9menu : Menu := { id := 5, name := "rice", calories := 200 }

/-- A tracker state holding only `c9menu`. -/
def c9state : TrackerState := { emptyState with menus := [c9menu] }

/- Calendar helper lemmas. -/

/-- The function `makeDay` is linear in its day argument. -/
theorem makeDay_day_shift (y m d k : Int) : makeDay y m (d + k) = makeDay y m d + k := by
  simp only [makeDay]
  ring

/-- The leap-day indicator is 0 or 1. -/
theorem leapDay_bounds (y : Int) : 0 ≤ leapDay y ∧ leapDay y ≤ 1 := by
  unfold leapDay
  split <;> norm_num

/-- Consecutive years are 365 to 366 days apart in `dayFromYear`. -/
theorem dayFromYear_succ_bounds (y : Int) :
    365 ≤ dayFromYear (y + 1) - dayFromYear y
    ∧ dayFromYear (y + 1) - dayFromYear y ≤ 366 := by
  simp only [dayFromYear]
  omega

/-- The monthly window of the source, `[new Date(y,m,1), new Date(y,m+1,0))`,
has positive length for every real month index. -/
theorem month_window_pos (y : Int) (m : Nat) (hm : m ≤ 11) :
    0 < makeDay y (↑m + 1) 0 - makeDay y ↑m 1 := by
  have hb := leapDay_bounds y
  have hy := dayFromYear_succ_bounds y
  interval_cases m <;>
    · simp only [makeDay, monthOffset]
      norm_num
      try omega

/-- All three period windows have positive duration. -/
theorem period_window_pos (p : Period) (y : Int) (m : Nat) (hm : m ≤ 11)
    (d t : Int) : 0 < periodEndMs p y m d t - periodStartMs p y m d t := by
  cases p with
  | daily =>
      have h := makeDay_day_shift y ↑m d 1
      simp only [periodStartMs, periodEndMs, dayMs]
      omega
  | weekly =>
      have h := makeDay_day_shift y ↑m (d - weekDayOf (makeDay y ↑m d)) 7
      simp only [periodStartMs, periodEndMs, dayMs]
      omega
  | monthly =>
      have h := month_window_pos y m hm
      simp only [periodStartMs, periodEndMs, dayMs]
      omega

/- Rational helper lemmas for the elapsed fraction. -/

/-- With a positive window, the upper clamp keeps the fraction at most 1. -/
theorem ratio_le_one_of_pos {a T : Int} (hT : 0 < T) :
    ((min a T : Int) : ℚ) / (T : ℚ) ≤ 1 := by
  have hTq : (0 : ℚ) < (T : ℚ) := by exact_mod_cast hT
  rw [div_le_one hTq]
  exact_mod_cast min_le_right a T

/-- With a positive window and nonnegative elapsed time, the fraction is
nonnegative. -/
theorem ratio_nonneg_of_nonneg {a T : Int} (hT : 0 < T) (ha : 0 ≤ a) :
    0 ≤ ((min a T : Int) : ℚ) / (T : ℚ) := by
  apply div_nonneg
  · have h : (0 : Int) ≤ min a T := le_min ha (le_of_lt hT)
    exact_mod_cast h
  · have h : (0 : Int) ≤ T := le_of_lt hT
    exact_mod_cast h

/-- C1: with the reference date 2024-01-15, `calculateStats("monthly", ·)`
sets `endDate` to `new Date(2024, 1, 0)` — the LAST day of January, one day
short of the first day of February — so the meal dated 2024-01-31 falls
inside the claimed window `[Jan 1, Feb 1)` yet is excluded from the monthly
total (which comes out 0 instead of 500; with the claimed end date it would
be 500). -/
theorem c1_monthly_window_excludes_last_day :
    Stats.total (calculateStats c1state Period.monthly 2024 0 15 0 0) = 0
    ∧ Stats.endDateMs (calculateStats c1state Period.monthly 2024 0 15 0 0)
        = makeDay 2024 0 31 * dayMs
    ∧ makeDay 2024 0 31 * dayMs + dayMs = makeDay 2024 1 1 * dayMs
    ∧ Stats.startDateMs (calculateStats c1state Period.monthly 2024 0 15 0 0)
        ≤ c1meal.date * dayMs
    ∧ c1meal.date * dayMs < makeDay 2024 1 1 * dayMs
    ∧ calculateCaloriesForDateRange c1state (makeDay 2024 0 1 * dayMs)
        (makeDay 2024 1 1 * dayMs) = 500 := by
  decide

/-- C2 counterexample: for the reference date 1970-01-02 with the wall clock
at the epoch (before the window starts), the daily `elapsedRatio` is negative
— the code never clamps below 0, refuting `elapsedRatio ∈ [0,1]`. -/
theorem c2_elapsedRatio_negative :
    Stats.elapsedRatio (calculateStats emptyState Period.daily 1970 0 2 0 0) < 0 := by
  have h : Stats.elapsedRatio (calculateStats emptyState Period.daily 1970 0 2 0 0)
      = ((-86400000 : Int) : ℚ) / ((86400000 : Int) : ℚ) := by
    simp only [calculateStats, periodStartMs, periodEndMs]
    norm_num [makeDay, dayFromYear, monthOffset, dayMs]
  rw [h]
  norm_num

/-- C2 (amended): for every period and reference date (any civil month
index up to 11), `elapsedRatio` is clamped above at 1, and it is nonnegative
whenever wall-clock now is at or after the window start; it is NOT clamped
below 0 for windows starting in the future. -/
theorem c2_elapsedRatio_bounds (s : TrackerState) (p : Period) (y : Int)
    (m : Nat) (d t nowMs : Int) (hm : m ≤ 11) :
    Stats.elapsedRatio (calculateStats s p y m d t nowMs) ≤ 1
    ∧ (Stats.startDateMs (calculateStats s p y m d t nowMs) ≤ nowMs →
        0 ≤ Stats.elapsedRatio (calculateStats s p y m d t nowMs)) := by
  have hpos := period_window_pos p y m hm d t
  constructor
  · simpa only [calculateStats] using ratio_le_one_of_pos hpos
  · intro hs
    simp only [calculateStats] at hs ⊢
    exact ratio_nonneg_of_nonneg hpos (by omega)

/-- C2 witness: the amended bounds at a concrete in-window instant. -/
theorem c2_elapsedRatio_bounds_witness :
    Stats.elapsedRatio (calculateStats emptyState Period.daily 1970 0 1 0 86400000) ≤ 1
    ∧ 0 ≤ Stats.elapsedRatio (calculateStats emptyState Period.daily 1970 0 1 0 86400000) := by
  have h := c2_elapsedRatio_bounds emptyState Period.daily 1970 0 1 0 86400000 (by decide)
  exact ⟨h.1, h.2 (by decide)⟩

/- Fold-to-sum helper for the calorie aggregation. -/

/-- A guarded accumulating fold is the sum of the contributions of the
entries passing the guard. -/
theorem foldl_ite_add (c : Meal → Int) (P : Meal → Prop) [DecidablePred P] :
    ∀ (l : List Meal) (init : Int),
      l.foldl (fun total x => if P x then total + c x else total) init
        = init + ((l.filter (fun x => decide (P x))).map c).sum := by
  intro l
  induction l with
  | nil => simp
  | cons x xs ih =>
      intro init
      by_cases h : P x <;> simp [h, ih, add_assoc]

/-- C8: with a fixed wall-clock instant (civil components `y m d` and
time-of-day `t`), `getOldData` returns exactly the meals dated strictly
before now minus 6 months, `removeOldData` keeps exactly the complementary
meals, and the two results partition the original meal list. -/
theorem c8_oldData_partition (s : TrackerState) (y : Int) (m : Nat) (d t : Int) :
    (∀ meal, meal ∈ getOldData s y m d t ↔
        meal ∈ s.meals ∧ meal.date * dayMs < sixMonthsAgoMs y m d t)
    ∧ (∀ meal, meal ∈ (removeOldData s y m d t).meals ↔
        meal ∈ s.meals ∧ ¬meal.date * dayMs < sixMonthsAgoMs y m d t)
    ∧ (getOldData s y m d t ++ (removeOldData s y m d t).meals).Perm s.meals := by
  refine ⟨?_, ?_, ?_⟩
  · intro meal
    simp [getOldData, List.mem_filter]
  · intro meal
    simp [removeOldData, saveMeals, List.mem_filter, not_lt]
  · have hperm := List.filter_append_perm
      (fun meal => decide (meal.date * dayMs < sixMonthsAgoMs y m d t)) s.meals
    have hcongr : s.meals.filter
          (fun meal => !decide (meal.date * dayMs < sixMonthsAgoMs y m d t))
        = s.meals.filter
          (fun meal => decide (sixMonthsAgoMs y m d t ≤ meal.date * dayMs)) := by
      apply List.filter_congr
      intro meal _
      by_cases h : meal.date * dayMs < sixMonthsAgoMs y m d t
      · simp [h, not_le.mpr h]
      · simp [h, not_lt.mp h]
    simpa [getOldData, removeOldData, saveMeals, hcongr] using hperm

/-- C7: `calculateCaloriesForDateRange(start, end)` equals the sum of the
effective calories (custom, else menu snapshot, else live lookup, else 0) of
the meals dated in `[start, end)`, and the total is invariant under any
permutation of the meal list. -/
theorem c7_calcRange_sum_order_indep (s : TrackerState) (a b : Int) :
    calculateCaloriesForDateRange s a b
      = ((s.meals.filter (fun meal =>
            decide (a ≤ meal.date * dayMs ∧ meal.date * dayMs < b))).map
          (effectiveCalories s.menus)).sum
    ∧ ∀ meals', s.meals.Perm meals' →
        calculateCaloriesForDateRange { s with meals := meals' } a b
          = calculateCaloriesForDateRange s a b := by
  have hsum : ∀ l : List Meal,
      l.foldl (fun total meal =>
        if a ≤ meal.date * dayMs ∧ meal.date * dayMs < b then
          total + effectiveCalories s.menus meal
        else total) 0
        = ((l.filter (fun meal =>
              decide (a ≤ meal.date * dayMs ∧ meal.date * dayMs < b))).map
            (effectiveCalories s.menus)).sum := by
    intro l
    simpa using foldl_ite_add (effectiveCalories s.menus)
      (fun meal => a ≤ meal.date * dayMs ∧ meal.date * dayMs < b) l 0
  constructor
  · exact hsum s.meals
  · intro meals' hperm
    show meals'.foldl _ 0 = s.meals.foldl _ 0
    rw [hsum meals', hsum s.meals]
    exact (((hperm.filter _).map _).sum_eq).symm

/-- C7 witness: a concrete two-meal list and its transposition give the same
range total. -/
theorem c7_calcRange_witness :
    calculateCaloriesForDateRange
        { c1state with meals := [c1meal, { c1meal with id := 2, customCalories := some 70 }] }
        0 (makeDay 2024 1 1 * dayMs)
      = calculateCaloriesForDateRange
        { c1state with meals := [{ c1meal with id := 2, customCalories := some 70 }, c1meal] }
        0 (makeDay 2024 1 1 * dayMs) := by
  have h := (c7_calcRange_sum_order_indep
      { c1state with meals := [{ c1meal with id := 2, customCalories := some 70 }, c1meal] }
      0 (makeDay 2024 1 1 * dayMs)).2
      [c1meal, { c1meal with id := 2, customCalories := some 70 }] (by decide)
  simpa using h

/- Merge lemmas. -/

/-- Unfolding one step of `mergeData`. -/
theorem mergeData_cons {α : Type} (getId : α → Int) (cur : List α) (item : α)
    (rest : List α) :
    mergeData getId cur (item :: rest)
      = mergeData getId
          (match cur.find? (fun existing => getId existing == getId item) with
           | some _ => cur
           | none => cur ++ [item]) rest := rfl

/-- C6: a merge import keeps every current entry unchanged in place and
appends exactly the imported items whose ids are not already present (the
ids inside one collection are unique by the data model, so the imported
list is id-distinct). -/
theorem c6_mergeData_merge_by_id {α : Type} (getId : α → Int) :
    ∀ (newData currentData : List α),
      newData.Pairwise (fun a b => getId a ≠ getId b) →
      mergeData getId currentData newData
        = currentData
            ++ newData.filter
                (fun item => !currentData.any (fun e => getId e == getId item)) := by
  intro newData
  induction newData with
  | nil =>
      intro cur _
      simp [mergeData]
  | cons item rest ih =>
      intro cur hdist
      rw [List.pairwise_cons] at hdist
      obtain ⟨hhead, htail⟩ := hdist
      rw [mergeData_cons]
      rcases hfind : cur.find? (fun existing => getId existing == getId item) with _ | e
      · -- id not yet present: the item is pushed, later items compare
        -- against the grown list, but their ids differ from this one
        have hany : cur.any (fun e => getId e == getId item) = false := by
          simp only [List.any_eq_false]
          intro x hx
          have := List.find?_eq_none.mp hfind x hx
          simpa using this
        have hcg : rest.filter
              (fun x => !(cur ++ [item]).any (fun e => getId e == getId x))
            = rest.filter (fun x => !cur.any (fun e => getId e == getId x)) := by
          apply List.filter_congr
          intro x hx
          have hne : getId item ≠ getId x := hhead x hx
          simp [List.any_append, hne]
        rw [ih (cur ++ [item]) htail, hcg]
        simp [hany, List.append_assoc]
      · -- id already present: the item is skipped
        have hmem := List.mem_of_find?_eq_some hfind
        have hpred := List.find?_some hfind
        have hany : cur.any (fun e => getId e == getId item) = true :=
          List.any_eq_true.mpr ⟨e, hmem, hpred⟩
        rw [ih cur htail]
        simp [hany]

/-- C6 witness: one id already present (kept unchanged, not updated) and one
new id (appended): exactly one entry is added. -/
theorem c6_mergeData_witness :
    mergeData Menu.id [{ id := 1, name := "rice", calories := 200 }]
        [{ id := 1, name := "RICE", calories := 999 },
         { id := 2, name := "soup", calories := 50 }]
      = [{ id := 1, name := "rice", calories := 200 },
         { id := 2, name := "soup", calories := 50 }] := by
  have h := c6_mergeData_merge_by_id Menu.id
      [{ id := 1, name := "RICE", calories := 999 },
       { id := 2, name := "soup", calories := 50 }]
      [{ id := 1, name := "rice", calories := 200 }]
      (by simp [List.pairwise_cons])
  rw [h]
  decide

/- Import step lemmas. -/

/-- The menus block leaves every other collection and storage key alone. -/
theorem importMenusStep_frame (mg : Bool) (sec : ImportSection (List Menu))
    (en : Bool) (s : TrackerState) :
    (importMenusStep mg sec en s).meals = s.meals
    ∧ (importMenusStep mg sec en s).goals = s.goals
    ∧ (importMenusStep mg sec en s).store.meals = s.store.meals
    ∧ (importMenusStep mg sec en s).store.dailyGoal = s.store.dailyGoal
    ∧ (importMenusStep mg sec en s).store.userData = s.store.userData := by
  rcases sec <;> cases en <;> simp [importMenusStep]

/-- The meals block leaves every other collection and storage key alone. -/
theorem importMealsStep_frame (mg : Bool) (sec : ImportSection (List Meal))
    (en : Bool) (s : TrackerState) :
    (importMealsStep mg sec en s).menus = s.menus
    ∧ (importMealsStep mg sec en s).goals = s.goals
    ∧ (importMealsStep mg sec en s).store.menus = s.store.menus
    ∧ (importMealsStep mg sec en s).store.dailyGoal = s.store.dailyGoal
    ∧ (importMealsStep mg sec en s).store.userData = s.store.userData := by
  rcases sec <;> cases en <;> simp [importMealsStep]

/-- The goals block leaves the other collections and their storage keys —
and the `userData` storage key — alone. -/
theorem importGoalsStep_frame (mg : Bool) (sec : ImportSection GoalsPayload)
    (en : Bool) (s : TrackerState) :
    (importGoalsStep mg sec en s).menus = s.menus
    ∧ (importGoalsStep mg sec en s).meals = s.meals
    ∧ (importGoalsStep mg sec en s).store.menus = s.store.menus
    ∧ (importGoalsStep mg sec en s).store.meals = s.store.meals
    ∧ (importGoalsStep mg sec en s).store.userData = s.store.userData := by
  rcases sec with _ | _ | g
  · cases en <;> simp [importGoalsStep]
  · cases en <;> simp [importGoalsStep]
  · cases en
    · simp [importGoalsStep]
    · rcases hg : g.daily with _ | dv <;> cases mg <;> simp [importGoalsStep, hg]

/-- A menus block that fires persists the new menu list. -/
theorem importMenusStep_persists (mg : Bool) (sec : ImportSection (List Menu))
    (s : TrackerState) (hsec : arraySectionOk sec = true) :
    (importMenusStep mg sec true s).store.menus
      = some (importMenusStep mg sec true s).menus := by
  rcases sec <;> simp_all [arraySectionOk, importMenusStep]

/-- A meals block that fires persists the new meal list. -/
theorem importMealsStep_persists (mg : Bool) (sec : ImportSection (List Meal))
    (s : TrackerState) (hsec : arraySectionOk sec = true) :
    (importMealsStep mg sec true s).store.meals
      = some (importMealsStep mg sec true s).meals := by
  rcases sec <;> simp_all [arraySectionOk, importMealsStep]

/-- A goals block that fires persists the daily goal (only). -/
theorem importGoalsStep_persists (mg : Bool) (sec : ImportSection GoalsPayload)
    (s : TrackerState) (hsec : goalsSectionOk sec = true) :
    (importGoalsStep mg sec true s).store.dailyGoal
      = some (importGoalsStep mg sec true s).goals.daily := by
  rcases sec with _ | _ | g <;> simp_all [goalsSectionOk, importGoalsStep]
  rcases hg : g.daily with _ | dv
  · rw [hg] at hsec
    simp at hsec
  · cases mg <;> simp [hg]

/-- The persistence behaviour of `importData`: sections that report imported
were written back — but for goals only the `dailyGoal` key — and the
`userData` storage key is never touched. -/
theorem importData_persists (s : TrackerState) (file : ImportFile)
    (opts : ImportOptions) :
    ((importData s file opts).2.importedMenus = true →
        (importData s file opts).1.store.menus
          = some (importData s file opts).1.menus)
    ∧ ((importData s file opts).2.importedMeals = true →
        (importData s file opts).1.store.meals
          = some (importData s file opts).1.meals)
    ∧ ((importData s file opts).2.importedGoals = true →
        (importData s file opts).1.store.dailyGoal
          = some (importData s file opts).1.goals.daily)
    ∧ (importData s file opts).1.store.userData = s.store.userData := by
  rcases hd : file.data with _ | data
  · simp [importData, hd, importFailure]
  · cases ht : jsTruthyStr file.exportedAt
    · simp [importData, hd, ht, importFailure]
    · cases hv : (validateImportData data).isValid
      · simp [importData, hd, ht, importDataChecked, hv, importFailure]
      · simp only [importData, hd, ht, importDataChecked, hv, if_true]
        set s1 := importMenusStep opts.merge data.menus opts.typeMenus s with hs1
        set s2 := importMealsStep opts.merge data.meals opts.typeMeals s1 with hs2
        set s3 := importGoalsStep opts.merge data.goals opts.typeGoals s2 with hs3
        have f2 := importMealsStep_frame opts.merge data.meals opts.typeMeals s1
        have f3 := importGoalsStep_frame opts.merge data.goals opts.typeGoals s2
        have f1 := importMenusStep_frame opts.merge data.menus opts.typeMenus s
        rw [← hs2] at f2
        rw [← hs3] at f3
        refine ⟨?_, ?_, ?_, ?_⟩
        · intro h
          rw [Bool.and_eq_true] at h
          obtain ⟨hm, he⟩ := h
          have hm' : arraySectionOk data.menus = true := by
            simpa [validateImportData] using hm
          rw [f3.2.2.1, f2.2.2.1, f3.1, f2.1, hs1, he]
          exact importMenusStep_persists opts.merge data.menus s hm'
        · intro h
          rw [Bool.and_eq_true] at h
          obtain ⟨hm, he⟩ := h
          have hm' : arraySectionOk data.meals = true := by
            simpa [validateImportData] using hm
          rw [f3.2.2.2.1, f3.2.1, hs2, he]
          exact importMealsStep_persists opts.merge data.meals s1 hm'
        · intro h
          rw [Bool.and_eq_true] at h
          obtain ⟨hm, he⟩ := h
          have hm' : goalsSectionOk data.goals = true := by
            simpa [validateImportData] using hm
          rw [hs3, he]
          exact importGoalsStep_persists opts.merge data.goals s2 hm'
        · rw [f3.2.2.2.2, f2.2.2.2.2, hs1, f1.2.2.2.2]

/-- C3 counterexample: importing a goals section that carries a user profile
(merge off, all types on) updates the in-memory profile but writes nothing
to the `userData` storage key — the imported goals value is not persisted in
full. -/
theorem c3_import_goals_userdata_not_persisted :
    ((importData emptyState c3goalsFile allTypesNoMerge).2.importedGoals = true)
    ∧ (importData emptyState c3goalsFile allTypesNoMerge).1.goals.userData
        = some c3userData
    ∧ (importData emptyState c3goalsFile allTypesNoMerge).1.store.userData
        = none := by
  decide

/-- C3 (amended): every public mutating operation writes each collection it
changed back to storage in full before returning — except that `importData`'s
goals section persists only the `daily` value: an imported `userData` is
applied in memory but never written to the `userData` storage key. -/
theorem c3_mutations_persist (s : TrackerState) (idNow : Int) (name : String)
    (cal delId date dg : Int) (menuIdArg : Option Int) (cn : Option String)
    (cc : Option Int) (ud : Option UserData) (y : Int) (m : Nat) (d t : Int)
    (file : ImportFile) (opts : ImportOptions) :
    (addMenu s idNow name cal).1.store.menus
        = some (addMenu s idNow name cal).1.menus
    ∧ (deleteMenu s delId).store.menus = some (deleteMenu s delId).menus
    ∧ (addMeal s idNow date menuIdArg cn cc).1.store.meals
        = some (addMeal s idNow date menuIdArg cn cc).1.meals
    ∧ (deleteMeal s delId).store.meals = some (deleteMeal s delId).meals
    ∧ (saveGoals s dg ud).store.dailyGoal = some (saveGoals s dg ud).goals.daily
    ∧ (∀ u : UserData, (saveGoals s dg (some u)).store.userData = some u)
    ∧ (removeOldData s y m d t).store.meals
        = some (removeOldData s y m d t).meals
    ∧ ((importData s file opts).2.importedMenus = true →
        (importData s file opts).1.store.menus
          = some (importData s file opts).1.menus)
    ∧ ((importData s file opts).2.importedMeals = true →
        (importData s file opts).1.store.meals
          = some (importData s file opts).1.meals)
    ∧ ((importData s file opts).2.importedGoals = true →
        (importData s file opts).1.store.dailyGoal
          = some (importData s file opts).1.goals.daily)
    ∧ (importData s file opts).1.store.userData = s.store.userData := by
  have hi := importData_persists s file opts
  refine ⟨rfl, rfl, rfl, rfl, ?_, ?_, rfl, hi.1, hi.2.1, hi.2.2.1, hi.2.2.2⟩
  · rcases ud with _ | u <;> rfl
  · intro u
    rfl

/-- C3 witness: the amended persistence facts at a concrete goals import and
a concrete `saveGoals` call. -/
theorem c3_mutations_persist_witness :
    (importData emptyState c3goalsFile allTypesNoMerge).1.store.dailyGoal
      = some (importData emptyState c3goalsFile allTypesNoMerge).1.goals.daily
    ∧ (saveGoals emptyState 1800 (some c3userData)).store.userData
        = some c3userData := by
  have h := c3_mutations_persist emptyState 0 "x" 0 0 0 0 none none none none
      2024 0 1 0 c3goalsFile allTypesNoMerge
  exact ⟨h.2.2.2.2.2.2.2.2.2.1 (by decide), h.2.2.2.2.2.1 c3userData⟩

/-- C4: importing the file produced by exporting a state's collections, with
`merge:false` and all types enabled, succeeds and restores the menus, meals
and goals of the exported state exactly (into any receiving state). -/
theorem c4_export_import_roundtrip (src recv : TrackerState) (ts : String)
    (hts : ts ≠ "") :
    ((importData recv (exportData (exportAllPayload src) ts).1
        allTypesNoMerge).2.success = true)
    ∧ (importData recv (exportData (exportAllPayload src) ts).1
        allTypesNoMerge).1.menus = src.menus
    ∧ (importData recv (exportData (exportAllPayload src) ts).1
        allTypesNoMerge).1.meals = src.meals
    ∧ (importData recv (exportData (exportAllPayload src) ts).1
        allTypesNoMerge).1.goals = src.goals := by
  have htr : jsTruthyStr (some ts) = true := by simp [jsTruthyStr, hts]
  refine ⟨?_, ?_, ?_, ?_⟩ <;>
    simp [importData, exportData, exportAllPayload, htr, importDataChecked,
      validateImportData, arraySectionOk, goalsSectionOk, allTypesNoMerge,
      importMenusStep, importMealsStep, importGoalsStep]

/-- C4 witness: the round trip at a concrete state and timestamp. -/
theorem c4_export_import_roundtrip_witness :
    ((importData emptyState
        (exportData (exportAllPayload c9state) "2024-01-01T00:00:00.000Z").1
        allTypesNoMerge).1.menus = c9state.menus)
    ∧ ((importData emptyState
        (exportData (exportAllPayload c9state) "2024-01-01T00:00:00.000Z").1
        allTypesNoMerge).2.success = true) := by
  have h := c4_export_import_roundtrip c9state emptyState
      "2024-01-01T00:00:00.000Z" (by decide)
  exact ⟨h.2.1, h.1⟩

/-- C5: `importData` returns a failure result (always carrying an error
message, never throwing past the call) exactly when the parsed envelope
lacks a truthy `data` or `exportedAt` field, or validation — a logical OR
over the three sections — finds none of them present; in particular the
empty payload is invalid. -/
theorem c5_import_failure_iff (s : TrackerState) (file : ImportFile)
    (opts : ImportOptions) :
    ((importData s file opts).2.success = false ↔
      (file.data = none ∨ jsTruthyStr file.exportedAt = false
        ∨ ∃ p, file.data = some p ∧ (validateImportData p).isValid = false))
    ∧ (importData s file opts).2.error.isSome
        = !(importData s file opts).2.success
    ∧ (validateImportData
        { menus := ImportSection.missing, meals := ImportSection.missing,
          goals := ImportSection.missing }).isValid = false := by
  refine ⟨?_, ?_, by decide⟩
  · rcases hd : file.data with _ | p
    · simp [importData, hd, importFailure]
    · cases ht : jsTruthyStr file.exportedAt
      · simp [importData, hd, ht, importFailure]
      · cases hv : (validateImportData p).isValid <;>
          simp [importData, hd, ht, importDataChecked, hv, importFailure]
  · rcases hd : file.data with _ | p
    · simp [importData, hd, importFailure]
    · cases ht : jsTruthyStr file.exportedAt
      · simp [importData, hd, ht, importFailure]
      · cases hv : (validateImportData p).isValid <;>
          simp [importData, hd, ht, importDataChecked, hv, importFailure]

/-- C10: an empty `menus` array is a structurally present section (arrays
are truthy in JS, the empty array included): the payload `{menus: []}` is
valid with the menus detail set, and importing it with `merge:false` and
menus enabled replaces the whole in-memory menu list with the empty list. -/
theorem c10_empty_menus_array_imports (s : TrackerState) :
    (validateImportData c10payload).isValid = true
    ∧ (validateImportData c10payload).menusOk = true
    ∧ (importData s c10file allTypesNoMerge).1.menus = []
    ∧ (importData s c10file allTypesNoMerge).2.success = true := by
  exact ⟨rfl, rfl, rfl, rfl⟩

/-- C9: `deleteMenu` removes exactly the matching menu and leaves the meal
list untouched; a meal added with a resolving (truthy) `menuId` snapshots
the menu's name and calories, and those snapshot fields survive any later
`deleteMenu` unchanged. -/
theorem c9_deleteMenu_frame_and_snapshot (s : TrackerState) (menuId0 : Int) :
    (deleteMenu s menuId0).meals = s.meals
    ∧ (deleteMenu s menuId0).menus
        = s.menus.filter (fun mn => mn.id != menuId0)
    ∧ ∀ (idNow date mid : Int) (menu : Menu),
        mid ≠ 0 →
        s.menus.find? (fun mn => some mn.id == some mid) = some menu →
        ((addMeal s idNow date (some mid) none none).2.menuName
            = some menu.name
          ∧ (addMeal s idNow date (some mid) none none).2.menuCalories
              = some menu.calories
          ∧ (addMeal s idNow date (some mid) none none).1.meals
              = s.meals ++ [(addMeal s idNow date (some mid) none none).2]
          ∧ ∀ delId,
              (deleteMenu (addMeal s idNow date (some mid) none none).1
                  delId).meals
                = (addMeal s idNow date (some mid) none none).1.meals) := by
  refine ⟨rfl, rfl, ?_⟩
  intro idNow date mid menu hmid hfind
  have htr : jsTruthyNum (some mid) = true := by simp [jsTruthyNum, hmid]
  have hfind' : s.menus.find? (fun mn => mn.id == mid) = some menu := by
    simpa using hfind
  refine ⟨?_, ?_, rfl, fun delId => rfl⟩ <;>
    simp [addMeal, htr, hfind']

/-- C9 witness: the frame and snapshot facts at a concrete menu and meal. -/
theorem c9_deleteMenu_frame_and_snapshot_witness :
    (addMeal c9state 10 0 (some 5) none none).2.menuName = some "rice"
    ∧ (addMeal c9state 10 0 (some 5) none none).2.menuCalories = some 200
    ∧ (deleteMenu (addMeal c9state 10 0 (some 5) none none).1 5).meals
        = (addMeal c9state 10 0 (some 5) none none).1.meals
    ∧ (deleteMenu c9state 5).meals = c9state.meals := by
  have h := c9_deleteMenu_frame_and_snapshot c9state 5
  have h2 := h.2.2 10 0 5 c9menu (by decide) (by decide)
  exact ⟨h2.1, h2.2.1, h2.2.2.2 5, h.1⟩

end CalTracker
